import Mathlib

/-!
Shallow embedding of the mcp2code core (experiments/mcp2code/src/mcp2code):
`config.py` (MCPServerConfig.get_transport_type), `types.py`
(should_skip_tool, generate_type_hint, generate_typed_dict,
generate_function_parameters), `generator.py` (discover_all_tools and the
argument-map construction of the generated tool functions), and
`runtime/connection_pool.py` (ConnectionPool.get_session, close_server,
close_all).  Python dicts are modelled as insertion-ordered association
lists; the asynchronous I/O actions (opening a transport, the protocol
handshake) are modelled as explicit outcome arguments, and the
single-threaded cooperative scheduler as sequential execution.
-/

namespace Mcp2Code

/-! ## Association lists modelling Python `dict`
`alookup` is `d.get(k)`, `ainsert` is `d[k] = v` (update in place, append at
the end when new), `aerase` is `del d[k]`, `akeys` is `list(d.keys())`. -/

def alookup {α : Type} : List (String × α) → String → Option α
  | [], _ => none
  | (k, v) :: rest, key => if k = key then some v else alookup rest key

def ainsert {α : Type} : List (String × α) → String → α → List (String × α)
  | [], key, v => [(key, v)]
  | (k, w) :: rest, key, v =>
      if k = key then (key, v) :: rest else (k, w) :: ainsert rest key v

def aerase {α : Type} : List (String × α) → String → List (String × α)
  | [], _ => []
  | (k, v) :: rest, key =>
      if k = key then aerase rest key else (k, v) :: aerase rest key

def akeys {α : Type} (l : List (String × α)) : List String :=
  l.map (·.1)

theorem alookup_ainsert_self {α : Type} (l : List (String × α)) (k : String) (v : α) :
    alookup (ainsert l k v) k = some v := by
  induction l with
  | nil => simp [ainsert, alookup]
  | cons hd tl ih =>
      by_cases h : hd.1 = k
      · simp [ainsert, alookup, h]
      · simp [ainsert, alookup, h, ih]

theorem alookup_ainsert_other {α : Type} (l : List (String × α)) (k k' : String) (v : α)
    (h : k ≠ k') : alookup (ainsert l k v) k' = alookup l k' := by
  induction l with
  | nil => simp [ainsert, alookup, h]
  | cons hd tl ih =>
      by_cases hh : hd.1 = k
      · simp [ainsert, alookup, hh, h]
      · by_cases hk : hd.1 = k'
        · simp [ainsert, alookup, hh, hk, Ne.symm h]
        · simp [ainsert, alookup, hh, hk, ih]

theorem alookup_aerase_self {α : Type} (l : List (String × α)) (k : String) :
    alookup (aerase l k) k = none := by
  induction l with
  | nil => simp [aerase, alookup]
  | cons hd tl ih =>
      by_cases h : hd.1 = k
      · simp [aerase, h, ih]
      · simp [aerase, alookup, h, ih]

theorem alookup_aerase_other {α : Type} (l : List (String × α)) (k k' : String)
    (h : k ≠ k') : alookup (aerase l k) k' = alookup l k' := by
  induction l with
  | nil => simp [aerase]
  | cons hd tl ih =>
      by_cases hh : hd.1 = k
      · simp [aerase, alookup, hh, h, ih]
      · by_cases hk : hd.1 = k'
        · simp [aerase, alookup, hh, hk, Ne.symm h]
        · simp [aerase, alookup, hh, hk, ih]

theorem alookup_isSome_of_mem_akeys {α : Type} (l : List (String × α)) (k : String)
    (h : k ∈ akeys l) : (alookup l k).isSome = true := by
  induction l with
  | nil => simp [akeys] at h
  | cons hd tl ih =>
      by_cases hh : hd.1 = k
      · simp [alookup, hh]
      · simp [akeys] at h
        rcases h with h | h
        · exact absurd h.symm hh
        · simpa [alookup, hh] using ih (by simpa [akeys] using h)

/-! ## `config.py`: `MCPServerConfig` and `get_transport_type` -/

/-- The pydantic `Literal["stdio", "sse", "streamable-http", "http"]`. -/
inductive TransportTag where
  | stdio
  | sse
  | streamableHttp
  | http
deriving DecidableEq

def TransportTag.render : TransportTag → String
  | .stdio => "stdio"
  | .sse => "sse"
  | .streamableHttp => "streamable-http"
  | .http => "http"

structure MCPServerConfig where
  command : Option String
  args : List String
  env : List (String × String)
  url : Option String
  transport : Option TransportTag
  headers : List (String × String)
deriving DecidableEq

/-- Python truthiness of an `Optional[str]`: `None` and `""` are falsy. -/
def truthy : Option String → Bool
  | none => false
  | some s => !s.isEmpty

/-- `MCPServerConfig.get_transport_type`: explicit tag wins; else
`if self.url: return "streamable-http"`, then `if self.command: return
"stdio"`, else `raise ValueError`. -/
def MCPServerConfig.get_transport_type (c : MCPServerConfig) : Except String String :=
  match c.transport with
  | some t => .ok t.render
  | none =>
      if truthy c.url then .ok "streamable-http"
      else if truthy c.command then .ok "stdio"
      else .error "Must specify either command (for stdio) or url (for streamable_http)"

/-! ## `types.py`: JSON schemas, tool skipping, type generation -/

/-- A JSON-Schema dict, restricted to the keys the code reads: `type`,
`properties`, `required`, `items`, `description`, and the `_class_name`
marker injected by `generate_all_types`.  An absent key is `none`/`[]`. -/
inductive Schema where
  | mk (ty : Option String) (properties : List (String × Schema))
       (required : List String) (items : Option Schema)
       (descr : Option String) (className : Option String) : Schema

def Schema.ty : Schema → Option String
  | .mk t _ _ _ _ _ => t

def Schema.properties : Schema → List (String × Schema)
  | .mk _ p _ _ _ _ => p

def Schema.required : Schema → List String
  | .mk _ _ r _ _ _ => r

def Schema.items : Schema → Option Schema
  | .mk _ _ _ i _ _ => i

def Schema.descr : Schema → Option String
  | .mk _ _ _ _ d _ => d

def Schema.className : Schema → Option String
  | .mk _ _ _ _ _ c => c

/-- Python falsiness of the schema dict: `not schema` holds exactly when the
dict has no keys, i.e. every modelled key is absent. -/
def Schema.isEmpty : Schema → Bool
  | .mk t p r i d c =>
      t.isNone && p.isEmpty && r.isEmpty && i.isNone && d.isNone && c.isNone

/-- One discovered tool dict as built by `discover_tools_from_server`:
keys `name`, `description`, `inputSchema`, `outputSchema` (possibly `None`). -/
structure Tool where
  name : String
  descr : String
  inputSchema : Option Schema
  outputSchema : Option Schema

/-- `should_skip_tool`: skip when `outputSchema` is falsy (absent or the
empty dict) or its `type` is not `"object"`. -/
def should_skip_tool (t : Tool) : Bool :=
  match t.outputSchema with
  | none => true
  | some os => if os.isEmpty then true else os.ty != some "object"

/-- `generate_type_hint`: recursive JSON-Schema-to-Python-type translation.
The `is_output` flag is threaded through exactly as in the source, where it
does not influence the produced hint.  `array` reads `items` with Python
falsiness (`generate_type_hint(items) if items else "Any"`); `object`
returns the injected `_class_name`, defaulting to `"TypedDict"`. -/
def generate_type_hint (s : Schema) (is_output : Bool) : String :=
  match s with
  | .mk ty _ _ items _ className =>
      match ty with
      | some "string" => "str"
      | some "integer" => "int"
      | some "number" => "float"
      | some "boolean" => "bool"
      | some "array" =>
          match items with
          | some it =>
              if it.isEmpty then "List[Any]"
              else "List[" ++ generate_type_hint it is_output ++ "]"
          | none => "List[Any]"
      | some "object" => className.getD "TypedDict"
      | _ => "Any"

/-- Structured content of the class definition text emitted by
`generate_typed_dict`: the class name, whether the base is plain
`TypedDict` (`total := true`) or `TypedDict, total=False`
(`total := false`), and one entry per emitted field line
`(field name, type hint, whether the line carries the "# required"
comment)`. -/
structure TypedDictDef where
  className : String
  total : Bool
  fields : List (String × String × Bool)

/-- `generate_typed_dict`: output types subclass plain `TypedDict`
(`base_class = "TypedDict"`), input types use `total=False`; one field line
per declared property, with the `# required` comment exactly when
`prop_name in required` and the type is an input type. -/
def generate_typed_dict (schema : Schema) (class_name : String) (is_output : Bool) :
    TypedDictDef :=
  { className := class_name
    total := is_output
    fields := schema.properties.map (fun pp =>
      (pp.1, generate_type_hint pp.2 is_output,
       decide (pp.1 ∈ schema.required) && !is_output)) }

/-- Python `TypedDict` semantics of the generated class text: the code emits
no per-field `Required[...]`/`NotRequired[...]` annotations, so a declared
field is required at the type level exactly when the class is total
(`class C(TypedDict)`); under `total=False` every field is optional.  The
`# required` marker is a comment with no typing effect. -/
def fieldRequiredInRecord (td : TypedDictDef) (f : String) : Bool :=
  (td.fields.any (fun p => p.1 == f)) && td.total

/-- One generated function parameter: `name: type` when required,
`name: Optional[type] = None` when optional. -/
structure Param where
  name : String
  ty : String
  optional : Bool

def renderParam (pm : Param) : String :=
  if pm.optional then pm.name ++ ": Optional[" ++ pm.ty ++ "] = None"
  else pm.name ++ ": " ++ pm.ty

/-- `generate_function_parameters`: one parameter per declared property
(required iff listed in `required`), and one `"name": name` entry in the
generated `arguments` dict per property.  Returns (parameters, argument
names). -/
def generate_function_parameters (input_schema : Schema) : List Param × List String :=
  (input_schema.properties.map (fun pp =>
      { name := pp.1
        ty := generate_type_hint pp.2 false
        optional := !(decide (pp.1 ∈ input_schema.required)) }),
   input_schema.properties.map (·.1))

/-- An opaque runtime argument value. -/
abbrev Value := Nat

/-- Runtime behaviour of the generated function body
(`_generate_tool_function`): build `arguments = {"p": p, ...}` from the
supplied parameter values, then
`arguments = {k: v for k, v in arguments.items() if v is not None}`. -/
def build_arguments (argNames : List String) (supplied : String → Option Value) :
    List (String × Value) :=
  (argNames.map (fun n => (n, supplied n))).filterMap
    (fun nv => nv.2.map (fun v => (nv.1, v)))

/-! ## `generator.py`: `MCP2CodeGenerator.discover_all_tools` -/

/-- The filtering loop of `discover_all_tools`: keep a tool exactly when
`should_skip_tool` is false (the loop appends skipped tools to a counter
only). -/
def supportedTools (tools : List Tool) : List Tool :=
  tools.filter (fun t => !should_skip_tool t)

/-- `discover_all_tools`, with the outcome of
`discover_tools_from_server(name, config)` for each configured server given
explicitly: an exception (`Except.error`) is caught, logged, and the server
is mapped to `[]`; a successful discovery is filtered by
`should_skip_tool`.  The loop body never aborts the iteration. -/
def discover_all_tools (servers : List (String × Except String (List Tool))) :
    List (String × List Tool) :=
  servers.map (fun nr =>
    match nr.2 with
    | .error _ => (nr.1, ([] : List Tool))
    | .ok tools => (nr.1, supportedTools tools))

/-! ## `runtime/connection_pool.py`: `ConnectionPool` -/

/-- Opaque handle for an established `ClientSession`. -/
abbrev Session := Nat

/-- Opaque handle for an open transport. -/
abbrev Transport := Nat

/-- Errors raised by `get_session`: `poolClosed` is the
`RuntimeError("Connection pool is closed")`; the other two are
`MCPConnectionError` — `notConfigured` carries the listed available server
names, `connectFailed` wraps the underlying cause. -/
inductive PoolError where
  | poolClosed
  | notConfigured (available : List String)
  | connectFailed (cause : String)
deriving DecidableEq

def isMCPConnectionError : PoolError → Bool
  | .poolClosed => false
  | .notConfigured _ => true
  | .connectFailed _ => true

/-- The mutable state of the singleton `ConnectionPool`: `_sessions`,
`_transports`, `_locks` (presence only), `_configs`, `_closed`. -/
structure PoolState where
  sessions : List (String × Session)
  transports : List (String × Transport)
  locks : List (String × Unit)
  configs : List (String × MCPServerConfig)
  closed : Bool

/-- `ConnectionPool.get_session`, sequentially (the per-server
`asyncio.Lock` serializes creation; in this single-threaded embedding the
double-check after acquiring it re-reads the same state).  The combined
outcome of `create_transport(config)`, `ClientSession(read, write)`,
`session.__aenter__()` and `session.initialize()` is the `connect`
argument: `Except.error` is any exception raised there, `Except.ok (t, s)`
the opened transport and initialized session.  Returns the result together
with the post-call pool state (an exception leaves already-performed
mutations — the cleared closed flag, a created lock — in place). -/
def get_session (p : PoolState) (name : String)
    (connect : Except String (Transport × Session)) :
    Except PoolError Session × PoolState :=
  if p.closed && (alookup p.configs name).isNone then
    (.error .poolClosed, p)
  else
    let p1 := if p.closed then { p with closed := false } else p
    match alookup p1.sessions name with
    | some s => (.ok s, p1)
    | none =>
        match alookup p1.configs name with
        | none => (.error (.notConfigured (akeys p1.configs)), p1)
        | some _ =>
            let p2 := if (alookup p1.locks name).isSome then p1
                      else { p1 with locks := ainsert p1.locks name () }
            match alookup p2.sessions name with
            | some s => (.ok s, p2)
            | none =>
                match connect with
                | .error msg => (.error (.connectFailed msg), p2)
                | .ok (t, s) =>
                    (.ok s, { p2 with
                               transports := ainsert p2.transports name t
                               sessions := ainsert p2.sessions name s })

/-- Observable close attempts: `session.__aexit__` / `transport.__aexit__`
for a server, with the flag recording whether that call raised. -/
inductive CloseAction where
  | closeSession (name : String) (failed : Bool)
  | closeTransport (name : String) (failed : Bool)
deriving DecidableEq

/-- `ConnectionPool.close_server`: if a session is mapped, attempt
`session.__aexit__` (`sessFail` says whether it raises; the exception is
caught and logged) and in the `finally` block delete the map entry; then
the same for the transport.  Returns the new state and the attempted close
actions in order. -/
def close_server (p : PoolState) (name : String) (sessFail tranFail : Bool) :
    PoolState × List CloseAction :=
  let step1 : PoolState × List CloseAction :=
    if (alookup p.sessions name).isSome then
      ({ p with sessions := aerase p.sessions name },
       [CloseAction.closeSession name sessFail])
    else (p, [])
  let p1 := step1.1
  let step2 : PoolState × List CloseAction :=
    if (alookup p1.transports name).isSome then
      ({ p1 with transports := aerase p1.transports name },
       [CloseAction.closeTransport name tranFail])
    else (p1, [])
  (step2.1, step1.2 ++ step2.2)

/-- The `for server_name in list(self._sessions.keys())` loop of
`close_all`: each `close_server` call is wrapped in try/except (and never
raises in this model, since `close_server` already swallows failures).
`fails` gives, per server, whether its session / transport close raises. -/
def closeAllLoop (p : PoolState) (names : List String) (fails : String → Bool × Bool) :
    PoolState × List CloseAction :=
  match names with
  | [] => (p, [])
  | n :: rest =>
      let st1 := close_server p n (fails n).1 (fails n).2
      let st2 := closeAllLoop st1.1 rest fails
      (st2.1, st1.2 ++ st2.2)

/-- `ConnectionPool.close_all`: return immediately when already closed;
otherwise set `_closed`, iterate `close_server` over a snapshot of the
session keys, then `clear()` both maps. -/
def close_all (p : PoolState) (fails : String → Bool × Bool) :
    PoolState × List CloseAction :=
  if p.closed then (p, [])
  else
    let p1 : PoolState := { p with closed := true }
    let st := closeAllLoop p1 (akeys p1.sessions) fails
    ({ st.1 with sessions := [], transports := [] }, st.2)

/-- Pool invariant: a session exists only for a configured server.
Sessions are only ever stored by `get_session` after the config check, and
`_configs` entries are never deleted, so every reachable pool state
satisfies this. -/
def sessions_configured (p : PoolState) : Prop :=
  ∀ n, (alookup p.sessions n).isSome = true → (alookup p.configs n).isSome = true

/-! ## Claims -/

/-- C4 counterexample: with no explicit tag, `get_transport_type` checks
`url` before `command`, so a config with both set yields
`"streamable-http"`, not the `"stdio"` the claim requires for a config with
a command present. -/
theorem claim_C4_counterexample :
    MCPServerConfig.get_transport_type
      { command := some "npx", args := [], env := [], url := some "http://example.com",
        transport := none, headers := [] } = Except.ok "streamable-http" ∧
    MCPServerConfig.get_transport_type
      { command := some "npx", args := [], env := [], url := some "http://example.com",
        transport := none, headers := [] } ≠ Except.ok "stdio" := by
  refine ⟨rfl, ?_⟩
  intro h
  have h' : (Except.ok "streamable-http" : Except String String) = Except.ok "stdio" := h
  injection h' with h''
  exact absurd h'' (by decide)

/-- C4 (amended): the transport kind is the explicit tag when present;
otherwise, if a (non-empty) URL is present the kind is `streamable-http`;
otherwise, if a (non-empty) command is present the kind is `stdio`; a
config with neither fails with a configuration error. -/
theorem claim_C4_transport_kind (c : MCPServerConfig) :
    (∀ t, c.transport = some t → c.get_transport_type = Except.ok t.render) ∧
    (c.transport = none → truthy c.url = true →
        c.get_transport_type = Except.ok "streamable-http") ∧
    (c.transport = none → truthy c.url = false → truthy c.command = true →
        c.get_transport_type = Except.ok "stdio") ∧
    (c.transport = none → truthy c.url = false → truthy c.command = false →
        ∃ msg, c.get_transport_type = Except.error msg) := by
  refine ⟨?_, ?_, ?_, ?_⟩
  · intro t ht
    simp [MCPServerConfig.get_transport_type, ht]
  · intro ht hu
    simp [MCPServerConfig.get_transport_type, ht, hu]
  · intro ht hu hc
    simp [MCPServerConfig.get_transport_type, ht, hu, hc]
  · intro ht hu hc
    refine ⟨"Must specify either command (for stdio) or url (for streamable_http)", ?_⟩
    simp [MCPServerConfig.get_transport_type, ht, hu, hc]

/-- C4 witness: the amended theorem applied to three concrete configs
(URL only, command only, neither). -/
theorem claim_C4_transport_kind_witness :
    MCPServerConfig.get_transport_type
      { command := none, args := [], env := [], url := some "http://example.com",
        transport := none, headers := [] } = Except.ok "streamable-http" ∧
    MCPServerConfig.get_transport_type
      { command := some "npx", args := [], env := [], url := none,
        transport := none, headers := [] } = Except.ok "stdio" ∧
    ∃ msg, MCPServerConfig.get_transport_type
      { command := none, args := [], env := [], url := none,
        transport := none, headers := [] } = Except.error msg :=
  ⟨(claim_C4_transport_kind _).2.1 rfl rfl,
   (claim_C4_transport_kind _).2.2.1 rfl rfl rfl,
   (claim_C4_transport_kind _).2.2.2 rfl rfl rfl⟩

/-- C5: a tool is skipped (hence excluded from binding generation) iff its
output schema is absent or empty or not `object`-typed, and the tools kept
by the `discover_all_tools` filtering loop are exactly the non-skipped
ones. -/
theorem claim_C5_eligibility (t : Tool) (tools : List Tool) :
    (should_skip_tool t = true ↔
      t.outputSchema = none ∨
        ∃ os, t.outputSchema = some os ∧ (os.isEmpty = true ∨ os.ty ≠ some "object")) ∧
    (t ∈ supportedTools tools ↔ t ∈ tools ∧ should_skip_tool t = false) := by
  constructor
  · cases h : t.outputSchema with
    | none => simp [should_skip_tool, h]
    | some os =>
        by_cases he : os.isEmpty = true
        · simp [should_skip_tool, h, he]
        · simp [should_skip_tool, h, he, bne]
  · simp [supportedTools, List.mem_filter]

/-- C6 counterexample: compiling an output schema with one property `a` and
an empty required list produces a plain-`TypedDict` (total) class, so field
`a` is required in the generated record although `a` is not listed in the
schema's required set — refuting "required iff listed". -/
theorem claim_C6_counterexample :
    fieldRequiredInRecord
      (generate_typed_dict
        (Schema.mk (some "object")
          [("a", Schema.mk (some "string") [] [] none none none)] [] none none none)
        "Out" true) "a" = true ∧
    "a" ∉ (Schema.mk (some "object")
          [("a", Schema.mk (some "string") [] [] none none none)] [] none none none).required := by
  refine ⟨rfl, ?_⟩
  simp [Schema.required]

/-- C6 (amended): the generated record has exactly one field per declared
property (in order); at the type level a declared field is required iff the
record is an output record (outputs subclass plain `TypedDict`, inputs use
`total=False`), independently of the schema's required set; the per-field
`# required` comment is emitted iff the property is listed in the required
set and the record is an input record. -/
theorem claim_C6_record_fields (schema : Schema) (cn : String) (is_output : Bool) :
    ((generate_typed_dict schema cn is_output).fields.map (·.1) =
        schema.properties.map (·.1)) ∧
    (∀ pn, fieldRequiredInRecord (generate_typed_dict schema cn is_output) pn =
        ((schema.properties.any (fun pp => pp.1 == pn)) && is_output)) ∧
    (∀ f ∈ (generate_typed_dict schema cn is_output).fields,
        f.2.2 = (decide (f.1 ∈ schema.required) && !is_output)) := by
  refine ⟨?_, ?_, ?_⟩
  · simp [generate_typed_dict]
  · intro pn
    simp only [fieldRequiredInRecord, generate_typed_dict]
    induction schema.properties with
    | nil => rfl
    | cons hd tl ih =>
        simp only [List.map_cons, List.any_cons] at ih ⊢
        cases h : (hd.1 == pn) with
        | true => simp
        | false => simpa [h] using ih
  · intro f hf
    simp only [generate_typed_dict, List.mem_map] at hf
    obtain ⟨pp, _, rfl⟩ := hf
    rfl

/-- C6 witness: the amended theorem applied to an input record over
`{properties: {a, b}, required: [a]}` — both properties appear as fields,
neither is required at the type level (input records are `total=False`),
and exactly `a` carries the `# required` comment. -/
theorem claim_C6_record_fields_witness :
    ((generate_typed_dict
        (Schema.mk (some "object")
          [("a", Schema.mk (some "integer") [] [] none none none),
           ("b", Schema.mk (some "string") [] [] none none none)]
          ["a"] none none none) "In" false).fields.map (·.1) = ["a", "b"]) ∧
    (fieldRequiredInRecord
        (generate_typed_dict
          (Schema.mk (some "object")
            [("a", Schema.mk (some "integer") [] [] none none none),
             ("b", Schema.mk (some "string") [] [] none none none)]
            ["a"] none none none) "In" false) "a" = false) ∧
    (("a", "int", true) : String × String × Bool).2.2 =
      (decide ((("a", "int", true) : String × String × Bool).1 ∈
        (Schema.mk (some "object")
          [("a", Schema.mk (some "integer") [] [] none none none),
           ("b", Schema.mk (some "string") [] [] none none none)]
          ["a"] none none none).required) && !false) := by
  refine ⟨?_, ?_, ?_⟩
  · rw [(claim_C6_record_fields _ "In" false).1]
    rfl
  · rw [(claim_C6_record_fields _ "In" false).2.1 "a"]
    rfl
  · exact (claim_C6_record_fields _ "In" false).2.2 ("a", "int", true) (by
      simp [generate_typed_dict, generate_type_hint, Schema.properties, Schema.required])

theorem mem_build_arguments (names : List String) (supplied : String → Option Value)
    (n : String) (v : Value) :
    (n, v) ∈ build_arguments names supplied ↔ n ∈ names ∧ supplied n = some v := by
  simp only [build_arguments, List.mem_filterMap, List.mem_map]
  constructor
  · rintro ⟨nv, ⟨m, hm, rfl⟩, hmap⟩
    simp only [Option.map_eq_some'] at hmap
    obtain ⟨w, hw, heq⟩ := hmap
    cases heq
    exact ⟨hm, hw⟩
  · rintro ⟨hn, hv⟩
    exact ⟨(n, supplied n), ⟨n, hn, rfl⟩, by simp [hv]⟩

/-- C7: the generated callable has one parameter per declared input
property, required exactly when listed in the schema's required set
(optional ones rendered `name: Optional[T] = None`), the generated
`arguments` dict enumerates every parameter, and the runtime body keeps a
binding exactly for the parameters whose supplied value is not `None`. -/
theorem claim_C7_parameters (schema : Schema) (supplied : String → Option Value) :
    ((generate_function_parameters schema).1.map Param.name =
        schema.properties.map (·.1)) ∧
    ((generate_function_parameters schema).2 = schema.properties.map (·.1)) ∧
    (∀ pp ∈ schema.properties,
        ({ name := pp.1, ty := generate_type_hint pp.2 false,
           optional := !(decide (pp.1 ∈ schema.required)) } : Param) ∈
          (generate_function_parameters schema).1) ∧
    (∀ pm ∈ (generate_function_parameters schema).1,
        (pm.optional = false ↔ pm.name ∈ schema.required) ∧
        (pm.optional = true →
          renderParam pm = pm.name ++ ": Optional[" ++ pm.ty ++ "] = None")) ∧
    (∀ n v, (n, v) ∈ build_arguments (generate_function_parameters schema).2 supplied ↔
        (n ∈ schema.properties.map (·.1) ∧ supplied n = some v)) := by
  refine ⟨?_, ?_, ?_, ?_, ?_⟩
  · simp [generate_function_parameters]
  · rfl
  · intro pp hpp
    simp only [generate_function_parameters, List.mem_map]
    exact ⟨pp, hpp, rfl⟩
  · intro pm hpm
    simp only [generate_function_parameters, List.mem_map] at hpm
    obtain ⟨pp, _, rfl⟩ := hpm
    constructor
    · simp
    · intro ho
      have hnr : pp.1 ∉ schema.required := by simpa using ho
      simp [renderParam, hnr]
  · intro n v
    exact mem_build_arguments _ supplied n v

/-- C7 witness: the theorem applied to the spec's example input schema
`{properties: {a: integer, b: string}, required: [a]}` with `a` supplied
and `b` absent: `a` becomes a required `int` parameter, `b` an optional
`str` parameter defaulting to `None`, and the argument map keeps `a` and
drops `b`. -/
theorem claim_C7_parameters_witness :
    ({ name := "b", ty := "str", optional := true } : Param) ∈
      (generate_function_parameters
        (Schema.mk (some "object")
          [("a", Schema.mk (some "integer") [] [] none none none),
           ("b", Schema.mk (some "string") [] [] none none none)]
          ["a"] none none none)).1 ∧
    ("a", 3) ∈ build_arguments
      (generate_function_parameters
        (Schema.mk (some "object")
          [("a", Schema.mk (some "integer") [] [] none none none),
           ("b", Schema.mk (some "string") [] [] none none none)]
          ["a"] none none none)).2
      (fun n => if n = "a" then some 3 else none) ∧
    ("b", 3) ∉ build_arguments
      (generate_function_parameters
        (Schema.mk (some "object")
          [("a", Schema.mk (some "integer") [] [] none none none),
           ("b", Schema.mk (some "string") [] [] none none none)]
          ["a"] none none none)).2
      (fun n => if n = "a" then some 3 else none) := by
  refine ⟨?_, ?_, ?_⟩
  · have h := (claim_C7_parameters
      (Schema.mk (some "object")
        [("a", Schema.mk (some "integer") [] [] none none none),
         ("b", Schema.mk (some "string") [] [] none none none)]
        ["a"] none none none)
      (fun n => if n = "a" then some 3 else none)).2.2.1
      ("b", Schema.mk (some "string") [] [] none none none) (by simp [Schema.properties])
    simpa [generate_type_hint, Schema.required] using h
  · exact ((claim_C7_parameters _ _).2.2.2.2 "a" 3).mpr
      (by simp [Schema.properties])
  · intro hmem
    have h := ((claim_C7_parameters
      (Schema.mk (some "object")
        [("a", Schema.mk (some "integer") [] [] none none none),
         ("b", Schema.mk (some "string") [] [] none none none)]
        ["a"] none none none)
      (fun n => if n = "a" then some 3 else none)).2.2.2.2 "b" 3).mp hmem
    simp at h

/-- C3: `discover_all_tools` produces one entry per configured server, in
order: a server whose discovery raised is mapped to the empty list, a
server whose discovery succeeded is mapped to its filtered tool list, and
no per-server outcome removes any other server from the result. -/
theorem claim_C3_discovery_partial_failure
    (servers : List (String × Except String (List Tool))) :
    ((discover_all_tools servers).map (·.1) = servers.map (·.1)) ∧
    (∀ n e, (n, (Except.error e : Except String (List Tool))) ∈ servers →
        (n, ([] : List Tool)) ∈ discover_all_tools servers) ∧
    (∀ n ts, (n, (Except.ok ts : Except String (List Tool))) ∈ servers →
        (n, supportedTools ts) ∈ discover_all_tools servers) := by
  refine ⟨?_, ?_, ?_⟩
  · induction servers with
    | nil => rfl
    | cons hd tl ih =>
        cases hr : hd.2 with
        | error e => simp [discover_all_tools, hr, List.map_cons] at ih ⊢; exact ih
        | ok ts => simp [discover_all_tools, hr, List.map_cons] at ih ⊢; exact ih
  · intro n e hmem
    simp only [discover_all_tools, List.mem_map]
    exact ⟨(n, Except.error e), hmem, rfl⟩
  · intro n ts hmem
    simp only [discover_all_tools, List.mem_map]
    exact ⟨(n, Except.ok ts), hmem, rfl⟩

/-- C3 witness: two servers, the first failing and the second succeeding
with one object-returning tool: both still appear in the result, the
failing one with an empty list and the other with its tool kept. -/
theorem claim_C3_discovery_partial_failure_witness :
    ((discover_all_tools
        [("bad", Except.error "handshake failed"),
         ("good", Except.ok [Tool.mk "t" ""
            none (some (Schema.mk (some "object") [] [] none none none))])]).map (·.1)
      = ["bad", "good"]) ∧
    ("bad", ([] : List Tool)) ∈ discover_all_tools
        [("bad", Except.error "handshake failed"),
         ("good", Except.ok [Tool.mk "t" ""
            none (some (Schema.mk (some "object") [] [] none none none))])] ∧
    ("good", supportedTools [Tool.mk "t" ""
            none (some (Schema.mk (some "object") [] [] none none none))]) ∈
      discover_all_tools
        [("bad", Except.error "handshake failed"),
         ("good", Except.ok [Tool.mk "t" ""
            none (some (Schema.mk (some "object") [] [] none none none))])] := by
  refine ⟨?_, ?_, ?_⟩
  · rw [(claim_C3_discovery_partial_failure _).1]
    rfl
  · exact (claim_C3_discovery_partial_failure _).2.1 "bad" "handshake failed"
      (List.mem_cons_self _ _)
  · exact (claim_C3_discovery_partial_failure _).2.2 "good"
      [Tool.mk "t" "" none (some (Schema.mk (some "object") [] [] none none none))]
      (List.mem_cons_of_mem _ (List.mem_cons_self _ _))

/-- C1: calling `get_session` on a pool whose closed flag is set: with a
registered config for the name, the flag is cleared and the call proceeds
past the closed check (returning the existing session if one is mapped,
and, when none is and the connection attempt succeeds, returning and
storing a newly created one); with no registered config it raises the
`PoolClosed` error and leaves the whole pool state — in particular the
session map — untouched. -/
theorem claim_C1_closed_pool_get_session (p : PoolState) (name : String)
    (connect : Except String (Transport × Session)) (hclosed : p.closed = true) :
    ((alookup p.configs name).isSome = true →
        (get_session p name connect).2.closed = false ∧
        (get_session p name connect).1 ≠ Except.error PoolError.poolClosed ∧
        (∀ s, alookup p.sessions name = some s →
            (get_session p name connect).1 = Except.ok s) ∧
        (∀ t s, alookup p.sessions name = none → connect = Except.ok (t, s) →
            (get_session p name connect).1 = Except.ok s ∧
            alookup (get_session p name connect).2.sessions name = some s)) ∧
    ((alookup p.configs name).isNone = true →
        (get_session p name connect).1 = Except.error PoolError.poolClosed ∧
        (get_session p name connect).2 = p) := by
  constructor
  · intro hsome
    obtain ⟨c, hcfg⟩ := Option.isSome_iff_exists.mp hsome
    have hcond : (p.closed && (alookup p.configs name).isNone) = false := by
      rw [hcfg]; simp
    cases hs : alookup p.sessions name with
    | some s0 =>
        have hres : get_session p name connect =
            (.ok s0, PoolState.mk p.sessions p.transports p.locks p.configs false) := by
          simp [get_session, hclosed, hs, hcfg]
        refine ⟨by rw [hres], by rw [hres]; simp, ?_, ?_⟩
        · intro s hs'
          injection hs' with he
          rw [hres, he]
        · intro t s hnone _
          exact absurd hnone (by simp)
    | none =>
        by_cases hl : (alookup p.locks name).isSome
        · cases connect with
          | error msg =>
              have hres : get_session p name (Except.error msg) =
                  (.error (.connectFailed msg),
                   PoolState.mk p.sessions p.transports p.locks p.configs false) := by
                simp [get_session, hclosed, hs, hcfg, hl]
              refine ⟨by rw [hres], by rw [hres]; simp, ?_, ?_⟩
              · intro s hs'
                exact absurd hs' (by simp)
              · intro t s _ hc'
                exact absurd hc' (by simp)
          | ok ts =>
              obtain ⟨t0, s0⟩ := ts
              have hres : get_session p name (Except.ok (t0, s0)) =
                  (.ok s0,
                   PoolState.mk (ainsert p.sessions name s0)
                     (ainsert p.transports name t0) p.locks p.configs false) := by
                simp [get_session, hclosed, hs, hcfg, hl]
              refine ⟨by rw [hres], by rw [hres]; simp, ?_, ?_⟩
              · intro s hs'
                exact absurd hs' (by simp)
              · intro t s _ hc'
                obtain ⟨rfl, rfl⟩ : t0 = t ∧ s0 = s := by simpa using hc'
                exact ⟨by rw [hres], by rw [hres]; exact alookup_ainsert_self _ _ _⟩
        · cases connect with
          | error msg =>
              have hres : get_session p name (Except.error msg) =
                  (.error (.connectFailed msg),
                   PoolState.mk p.sessions p.transports
                     (ainsert p.locks name ()) p.configs false) := by
                simp [get_session, hclosed, hs, hcfg, hl]
              refine ⟨by rw [hres], by rw [hres]; simp, ?_, ?_⟩
              · intro s hs'
                exact absurd hs' (by simp)
              · intro t s _ hc'
                exact absurd hc' (by simp)
          | ok ts =>
              obtain ⟨t0, s0⟩ := ts
              have hres : get_session p name (Except.ok (t0, s0)) =
                  (.ok s0,
                   PoolState.mk (ainsert p.sessions name s0)
                     (ainsert p.transports name t0)
                     (ainsert p.locks name ()) p.configs false) := by
                simp [get_session, hclosed, hs, hcfg, hl]
              refine ⟨by rw [hres], by rw [hres]; simp, ?_, ?_⟩
              · intro s hs'
                exact absurd hs' (by simp)
              · intro t s _ hc'
                obtain ⟨rfl, rfl⟩ : t0 = t ∧ s0 = s := by simpa using hc'
                exact ⟨by rw [hres], by rw [hres]; exact alookup_ainsert_self _ _ _⟩
  · intro hnone
    have hcond : (p.closed && (alookup p.configs name).isNone) = true := by
      simp [hclosed, hnone]
    exact ⟨by simp [get_session, hcond], by simp [get_session, hcond]⟩

def sampleConfig : MCPServerConfig :=
  { command := some "npx", args := [], env := [], url := none,
    transport := none, headers := [] }

def sampleClosedPool : PoolState :=
  ⟨[], [], [], [("srv", sampleConfig)], true⟩

/-- C1 witness: a closed pool with only `srv` configured — `get_session`
for `srv` reopens and connects, `get_session` for an unknown name fails
with `PoolClosed` and changes nothing. -/
theorem claim_C1_closed_pool_get_session_witness :
    (get_session sampleClosedPool "srv" (Except.ok (7, 42))).2.closed = false ∧
    (get_session sampleClosedPool "srv" (Except.ok (7, 42))).1 = Except.ok 42 ∧
    (get_session sampleClosedPool "other" (Except.ok (7, 42))).1 =
      Except.error PoolError.poolClosed ∧
    (get_session sampleClosedPool "other" (Except.ok (7, 42))).2 = sampleClosedPool := by
  have h1 := (claim_C1_closed_pool_get_session sampleClosedPool "srv"
    (Except.ok (7, 42)) rfl).1 rfl
  have h2 := (claim_C1_closed_pool_get_session sampleClosedPool "other"
    (Except.ok (7, 42)) rfl).2 rfl
  exact ⟨h1.1, (h1.2.2.2 7 42 rfl rfl).1, h2.1, h2.2⟩

/-- C2: for a configured server with no live session (and no mapped
transport), a connection-attempt failure makes `get_session` raise
`MCPConnectionError` wrapping the cause, and leaves the session and
transport maps exactly as they were — the server entry stays unconnected,
so a later retry is possible. -/
theorem claim_C2_connect_failure_leaves_entry_unconnected (p : PoolState)
    (name msg : String) (c : MCPServerConfig)
    (hc : alookup p.configs name = some c)
    (hs : alookup p.sessions name = none)
    (ht : alookup p.transports name = none) :
    (get_session p name (Except.error msg)).1 =
      Except.error (PoolError.connectFailed msg) ∧
    isMCPConnectionError (PoolError.connectFailed msg) = true ∧
    (get_session p name (Except.error msg)).2.sessions = p.sessions ∧
    (get_session p name (Except.error msg)).2.transports = p.transports ∧
    alookup (get_session p name (Except.error msg)).2.sessions name = none ∧
    alookup (get_session p name (Except.error msg)).2.transports name = none := by
  have hcond : (p.closed && (alookup p.configs name).isNone) = false := by
    rw [hc]; simp
  cases hcl : p.closed with
  | true =>
      by_cases hl : (alookup p.locks name).isSome
      · have hres : get_session p name (Except.error msg) =
            (.error (.connectFailed msg),
             PoolState.mk p.sessions p.transports p.locks p.configs false) := by
          simp [get_session, hcond, hcl, hs, hc, hl]
        rw [hres]
        exact ⟨rfl, rfl, rfl, rfl, hs, ht⟩
      · have hres : get_session p name (Except.error msg) =
            (.error (.connectFailed msg),
             PoolState.mk p.sessions p.transports
               (ainsert p.locks name ()) p.configs false) := by
          simp [get_session, hcond, hcl, hs, hc, hl]
        rw [hres]
        exact ⟨rfl, rfl, rfl, rfl, hs, ht⟩
  | false =>
      by_cases hl : (alookup p.locks name).isSome
      · have hres : get_session p name (Except.error msg) =
            (.error (.connectFailed msg), p) := by
          simp [get_session, hcond, hcl, hs, hc, hl]
        rw [hres]
        exact ⟨rfl, rfl, rfl, rfl, hs, ht⟩
      · have hres : get_session p name (Except.error msg) =
            (.error (.connectFailed msg),
             PoolState.mk p.sessions p.transports
               (ainsert p.locks name ()) p.configs false) := by
          simp [get_session, hcond, hcl, hs, hc, hl]
        rw [hres]
        exact ⟨rfl, rfl, rfl, rfl, hs, ht⟩

def sampleEmptyOpenPool : PoolState :=
  ⟨[], [], [], [("srv", sampleConfig)], false⟩

/-- C2 witness: on an open pool with `srv` configured but unconnected, a
failing connection attempt raises the typed error and both maps stay
empty. -/
theorem claim_C2_connect_failure_leaves_entry_unconnected_witness :
    (get_session sampleEmptyOpenPool "srv" (Except.error "boom")).1 =
      Except.error (PoolError.connectFailed "boom") ∧
    (get_session sampleEmptyOpenPool "srv" (Except.error "boom")).2.sessions = [] ∧
    (get_session sampleEmptyOpenPool "srv" (Except.error "boom")).2.transports = [] := by
  have h := claim_C2_connect_failure_leaves_entry_unconnected sampleEmptyOpenPool
    "srv" "boom" sampleConfig rfl rfl rfl
  exact ⟨h.1, h.2.2.1, h.2.2.2.1⟩

/-- C10: `get_session` on an open pool for a name with no registered config
(given the invariant that sessions exist only for configured servers)
raises `MCPConnectionError` listing the available server names — not the
`PoolClosed` error — and leaves the pool state, in particular all four
maps, unchanged. -/
theorem claim_C10_unconfigured_name_open_pool (p : PoolState) (name : String)
    (connect : Except String (Transport × Session))
    (hclosed : p.closed = false)
    (hcfg : alookup p.configs name = none)
    (hinv : sessions_configured p) :
    (get_session p name connect).1 =
      Except.error (PoolError.notConfigured (akeys p.configs)) ∧
    isMCPConnectionError (PoolError.notConfigured (akeys p.configs)) = true ∧
    PoolError.notConfigured (akeys p.configs) ≠ PoolError.poolClosed ∧
    (get_session p name connect).2 = p := by
  have hs : alookup p.sessions name = none := by
    cases hh : alookup p.sessions name with
    | none => rfl
    | some s =>
        have := hinv name (by simp [hh])
        rw [hcfg] at this
        simp at this
  have hcond : (p.closed && (alookup p.configs name).isNone) = false := by
    simp [hclosed]
  have hres : get_session p name connect =
      (.error (.notConfigured (akeys p.configs)), p) := by
    simp [get_session, hcond, hclosed, hs, hcfg]
  rw [hres]
  exact ⟨rfl, rfl, by simp, rfl⟩

def sampleConnectedPool : PoolState :=
  ⟨[("srv", 1)], [("srv", 2)], [("srv", ())], [("srv", sampleConfig)], false⟩

/-- C10 witness: asking an open single-server pool for an unknown name
yields the connection error listing `srv` and leaves the pool unchanged. -/
theorem claim_C10_unconfigured_name_open_pool_witness :
    (get_session sampleConnectedPool "zzz" (Except.ok (1, 2))).1 =
      Except.error (PoolError.notConfigured ["srv"]) ∧
    (get_session sampleConnectedPool "zzz" (Except.ok (1, 2))).2 =
      sampleConnectedPool := by
  have hinv : sessions_configured sampleConnectedPool := by
    intro n h
    by_cases he : "srv" = n <;>
      simp [sampleConnectedPool, alookup, he] at h ⊢
  have h := claim_C10_unconfigured_name_open_pool sampleConnectedPool "zzz"
    (Except.ok (1, 2)) rfl rfl hinv
  exact ⟨h.1.trans rfl, h.2.2.2⟩

/-- C8: `close_server` performs the session close (when a session is
mapped) and then the transport close (when a transport is mapped) as two
steps whose attempted actions are recorded in that order, independently of
whether either close raises (`sf`/`tf` only mark the recorded failure);
afterwards the server has no entry in either map. -/
theorem claim_C8_close_server_steps (p : PoolState) (name : String) (sf tf : Bool) :
    (close_server p name sf tf).2 =
      (if (alookup p.sessions name).isSome then [CloseAction.closeSession name sf]
       else []) ++
      (if (alookup p.transports name).isSome then [CloseAction.closeTransport name tf]
       else []) ∧
    alookup (close_server p name sf tf).1.sessions name = none ∧
    alookup (close_server p name sf tf).1.transports name = none := by
  by_cases h1 : (alookup p.sessions name).isSome
  · by_cases h2 : (alookup p.transports name).isSome
    · refine ⟨?_, ?_, ?_⟩ <;> simp [close_server, h1, h2, alookup_aerase_self]
    · refine ⟨?_, ?_, ?_⟩ <;>
        simp [close_server, h1, h2, alookup_aerase_self,
          Option.not_isSome_iff_eq_none.mp h2]
  · by_cases h2 : (alookup p.transports name).isSome
    · refine ⟨?_, ?_, ?_⟩ <;>
        simp [close_server, h1, h2, alookup_aerase_self,
          Option.not_isSome_iff_eq_none.mp h1]
    · refine ⟨?_, ?_, ?_⟩ <;>
        simp [close_server, h1, h2,
          Option.not_isSome_iff_eq_none.mp h1, Option.not_isSome_iff_eq_none.mp h2]

theorem close_server_closed (p : PoolState) (n : String) (a b : Bool) :
    (close_server p n a b).1.closed = p.closed := by
  by_cases h1 : (alookup p.sessions n).isSome <;>
    by_cases h2 : (alookup p.transports n).isSome <;>
      simp [close_server, h1, h2]

theorem close_server_flag_indep (p : PoolState) (n : String) (a b a' b' : Bool) :
    (close_server p n a b).1 = (close_server p n a' b').1 := by
  by_cases h1 : (alookup p.sessions n).isSome <;>
    by_cases h2 : (alookup p.transports n).isSome <;>
      simp [close_server, h1, h2]

theorem close_server_sessions_other (p : PoolState) (n m : String) (a b : Bool)
    (h : n ≠ m) :
    alookup (close_server p n a b).1.sessions m = alookup p.sessions m := by
  by_cases h1 : (alookup p.sessions n).isSome <;>
    by_cases h2 : (alookup p.transports n).isSome <;>
      simp [close_server, h1, h2, alookup_aerase_other _ _ _ h]

theorem closeAllLoop_closed (names : List String) (p : PoolState)
    (f : String → Bool × Bool) :
    (closeAllLoop p names f).1.closed = p.closed := by
  induction names generalizing p with
  | nil => rfl
  | cons n rest ih =>
      simp only [closeAllLoop]
      rw [ih, close_server_closed]

theorem closeAllLoop_flag_indep (names : List String) (p : PoolState)
    (f g : String → Bool × Bool) :
    (closeAllLoop p names f).1 = (closeAllLoop p names g).1 := by
  induction names generalizing p with
  | nil => rfl
  | cons n rest ih =>
      simp only [closeAllLoop]
      rw [close_server_flag_indep p n (f n).1 (f n).2 (g n).1 (g n).2]
      exact ih _

theorem closeAllLoop_mem_closeSession (names : List String) (p : PoolState)
    (f : String → Bool × Bool) (n : String) (hn : n ∈ names)
    (hs : (alookup p.sessions n).isSome = true) :
    CloseAction.closeSession n (f n).1 ∈ (closeAllLoop p names f).2 := by
  induction names generalizing p with
  | nil => simp at hn
  | cons m rest ih =>
      simp only [closeAllLoop, List.mem_append]
      by_cases he : m = n
      · subst he
        left
        by_cases h2 : (alookup p.transports m).isSome <;>
          simp [close_server, hs, h2]
      · rcases List.mem_cons.mp hn with h | h
        · exact absurd h.symm he
        · right
          exact ih _ h (by
            rw [close_server_sessions_other p m n _ _ he]
            exact hs)

theorem close_all_closed_noop (q : PoolState) (g : String → Bool × Bool)
    (h : q.closed = true) : close_all q g = (q, []) := by
  simp [close_all, h]

/-- C9: `close_all` on an already-closed pool changes nothing and performs
no close action; on an open pool it ends with the closed flag set (the flag
is assigned before the loop in the definition), with both maps cleared,
with a final state independent of which per-server closes failed, and with
a session close attempted for every server that had a session; running
`close_all` again on the result is a no-op. -/
theorem claim_C9_close_all_idempotent (p : PoolState) (f g : String → Bool × Bool) :
    (p.closed = true → close_all p f = (p, [])) ∧
    (p.closed = false →
        (close_all p f).1.closed = true ∧
        (close_all p f).1.sessions = [] ∧
        (close_all p f).1.transports = [] ∧
        (close_all p f).1 = (close_all p g).1 ∧
        (∀ n, n ∈ akeys p.sessions →
            CloseAction.closeSession n (f n).1 ∈ (close_all p f).2)) ∧
    close_all (close_all p f).1 g = ((close_all p f).1, []) := by
  refine ⟨?_, ?_, ?_⟩
  · intro h
    exact close_all_closed_noop p f h
  · intro h
    refine ⟨?_, ?_, ?_, ?_, ?_⟩
    · simp [close_all, h, closeAllLoop_closed]
    · simp [close_all, h]
    · simp [close_all, h]
    · simp only [close_all, h, Bool.false_eq_true, if_false]
      rw [closeAllLoop_flag_indep _ _ f g]
    · intro n hn
      have hs : (alookup p.sessions n).isSome = true :=
        alookup_isSome_of_mem_akeys _ _ hn
      simp only [close_all, h, Bool.false_eq_true, if_false]
      exact closeAllLoop_mem_closeSession _ _ f n hn hs
  · have hcl : (close_all p f).1.closed = true := by
      cases hpc : p.closed with
      | true => simp [close_all, hpc]
      | false => simp [close_all, hpc, closeAllLoop_closed]
    exact close_all_closed_noop _ g hcl

/-- C9 witness: a two-server open pool — after `close_all` (with failing
session closes) the flag is set, both maps are empty, `a`'s session close
was attempted, and a second `close_all` is a no-op. -/
theorem claim_C9_close_all_idempotent_witness :
    (close_all ⟨[("a", 1), ("b", 2)], [("a", 10), ("b", 20)], [], [], false⟩
      (fun _ => (true, false))).1.closed = true ∧
    (close_all ⟨[("a", 1), ("b", 2)], [("a", 10), ("b", 20)], [], [], false⟩
      (fun _ => (true, false))).1.sessions = [] ∧
    (close_all ⟨[("a", 1), ("b", 2)], [("a", 10), ("b", 20)], [], [], false⟩
      (fun _ => (true, false))).1.transports = [] ∧
    CloseAction.closeSession "a" true ∈
      (close_all ⟨[("a", 1), ("b", 2)], [("a", 10), ("b", 20)], [], [], false⟩
        (fun _ => (true, false))).2 ∧
    close_all
      (close_all ⟨[("a", 1), ("b", 2)], [("a", 10), ("b", 20)], [], [], false⟩
        (fun _ => (true, false))).1 (fun _ => (false, false)) =
      ((close_all ⟨[("a", 1), ("b", 2)], [("a", 10), ("b", 20)], [], [], false⟩
        (fun _ => (true, false))).1, []) := by
  have h := claim_C9_close_all_idempotent
    ⟨[("a", 1), ("b", 2)], [("a", 10), ("b", 20)], [], [], false⟩
    (fun _ => (true, false)) (fun _ => (false, false))
  have h2 := h.2.1 rfl
  exact ⟨h2.1, h2.2.1, h2.2.2.1, h2.2.2.2.2 "a" (by decide), h.2.2⟩

end Mcp2Code
